import Mathlib

/-!
Shallow embedding of the cricket analytics generators of this repository:

* the match-outcome predictor (`handlePredict` in the `MatchPredictor`
  component, `src/unnamed/part_001`), and
* the synthetic player-statistics engine of
  `src/frontend/src/pages/PlayerDeepDive.js`
  (`generatePlayerStats`, `generateRoleSpecificStats`,
  `generateRoleSpecificSkills`, `generateFallbackMatches`,
  `analyzeRecentForm`, `generateSituationalStats`,
  `generatePhasePerformance`, `generateHomeAwayStats`,
  `generateTrendData`, `generateFormatData`, `generateOpponentData`).

JavaScript numbers are modelled as `ℚ` (with `ℤ`/`ℕ` where the source only
ever produces integers), `Math.floor` as `Rat.floor`, `Math.round` and
`Number(x.toFixed(1))` as floor-based half-up rounding (ECMAScript `toFixed`
picks the larger candidate on ties, i.e. half-up).  `Math.random()` is an
unseeded global source; it is modelled as an explicit stream `r : ℕ → ℚ` of
draws, consumed in textual call order.  `Date.now()` is modelled as an
explicit parameter `now : ℤ` (milliseconds).  Purely presentational string
formatting (`toFixed` producing display strings, `toISOString`,
`toLocaleDateString`) is not modelled: fields holding such formatted numbers
are kept as their rounded numeric values, and the two date display fields are
represented by the underlying millisecond timestamp.
-/

namespace Cricket

/-- JS `Math.floor` on a rational. -/
def jsFloor (q : ℚ) : ℤ := ⌊q⌋

/-- JS `Math.round`: round half towards positive infinity. -/
def jsRound (q : ℚ) : ℤ := ⌊q + 1/2⌋

/-- JS `Number(x.toFixed(1))`: round to one decimal, half-up. -/
def round1 (q : ℚ) : ℚ := (⌊q * 10 + 1/2⌋ : ℚ) / 10

/-- Substring test on character lists (JS `String.prototype.includes`). -/
def listIsInfixOf (needle : List Char) : List Char → Bool
  | [] => needle.isEmpty
  | c :: rest => needle.isPrefixOf (c :: rest) || listIsInfixOf needle rest

/-- JS `s.includes(sub)`. -/
def strIncludes (s sub : String) : Bool := listIsInfixOf sub.toList s.toList

/-! ## Match-outcome predictor (`handlePredict`, `src/unnamed/part_001`) -/

/-- An entry of the `availableTeams` catalog. -/
structure Team where
  name : String
  ranking : ℤ
  code : String
deriving DecidableEq, Repr

/-- The `availableTeams` catalog of the `MatchPredictor` component.  The
source sorts it by ranking before use (`sortedTeams`); the literal list is
already ranking-sorted, so the sort is the identity and
`internationalTeams = availableTeams`. -/
def availableTeams : List Team :=
  [ ⟨"India", 1, "IND"⟩,
    ⟨"Australia", 2, "AUS"⟩,
    ⟨"England", 3, "ENG"⟩,
    ⟨"South Africa", 4, "SA"⟩,
    ⟨"New Zealand", 5, "NZ"⟩,
    ⟨"Pakistan", 6, "PAK"⟩,
    ⟨"West Indies", 7, "WI"⟩,
    ⟨"Sri Lanka", 8, "SL"⟩,
    ⟨"Bangladesh", 9, "BAN"⟩,
    ⟨"Afghanistan", 10, "AFG"⟩,
    ⟨"Ireland", 11, "IRE"⟩,
    ⟨"Netherlands", 12, "NED"⟩ ]

/-- One entry of the prediction's `factors` list. -/
structure Factor where
  name : String
  impact : ℤ
deriving DecidableEq, Repr

/-- The prediction object built by `handlePredict`.  `model_version` is the
constant string `v2.1` and `prediction_time` is a wall-clock timestamp with
no computational content; both are omitted, as is the `matchDetails` echo of
the form inputs. -/
structure Prediction where
  winner : String
  probability : ℤ
  loser : String
  loserProbability : ℤ
  confidence : ℤ
  factors : List Factor
deriving DecidableEq, Repr

/-- The "Home Advantage" impact computation of `handlePredict`: it checks
only the three literal team names `India`, `Australia`, `England`. -/
def homeAdvantageImpact (venue winner : String) : ℤ :=
  if (strIncludes venue "India" && winner == "India")
      || (strIncludes venue "Australia" && winner == "Australia")
      || (strIncludes venue "England" && winner == "England") then 10 else 0

/-- Source: `probA` of `handlePredict`: `Math.max(20, Math.min(80, 50 + rankingDiff*3))`
with `rankingDiff = teamB.ranking - teamA.ranking`. -/
def probA (teamA teamB : Team) : ℤ :=
  max 20 (min 80 (50 + (teamB.ranking - teamA.ranking) * 3))

/-- The prediction computation of `handlePredict` (lines 110-156 of
`src/unnamed/part_001`), after the two teams have been resolved in the
catalog.  `rand` is the `Math.random()` draw feeding `confidence`. -/
def predict (teamA teamB : Team) (tossWinner venue : String) (rand : ℚ) :
    Prediction :=
  let rankingDiff : ℤ := teamB.ranking - teamA.ranking
  let pA : ℤ := probA teamA teamB
  let pB : ℤ := 100 - pA
  let winner : String := if pA > pB then teamA.name else teamB.name
  let winnerProbability : ℤ := if pA > pB then pA else pB
  let loser : String := if pA > pB then teamB.name else teamA.name
  let loserProbability : ℤ := if pA > pB then pB else pA
  { winner := winner
    probability := winnerProbability
    loser := loser
    loserProbability := loserProbability
    confidence := jsRound (75 + rand * 20)
    factors :=
      [ { name := "Team Ranking", impact := |rankingDiff| * 5 },
        { name := "Toss Advantage",
          impact := if tossWinner == winner then 15 else 0 },
        { name := "Home Advantage",
          impact := homeAdvantageImpact venue winner },
        { name := "Format Experience", impact := 20 }
      ].filter (fun factor => factor.impact > 0) }

/-! ## Match-history synthesizer (`generateFallbackMatches`,
`src/frontend/src/pages/PlayerDeepDive.js` lines 422-483) -/

/-- The name hash used throughout `PlayerDeepDive.js`:
`name.split('').reduce((hash, char) => hash + char.charCodeAt(0), 0)`. -/
def nameHash (name : String) : ℕ :=
  name.toList.foldl (fun hash c => hash + c.toNat) 0

/-- Source: `isAggressive = (nameHash % 3) === 0`. -/
def isAggressive (seed : ℕ) : Bool := seed % 3 == 0

/-- Source: `isConsistent = (nameHash % 4) === 0`. -/
def isConsistent (seed : ℕ) : Bool := seed % 4 == 0

/-- Source: `baseSR = isAggressive ? 85 : (isConsistent ? 70 : 78)` —
note `isAggressive` is tested first here. -/
def baseSR (seed : ℕ) : ℕ :=
  if isAggressive seed then 85 else if isConsistent seed then 70 else 78

/-- Source: `matchSeed = (nameHash + i * 1000) % 10000`. -/
def matchSeed (seed i : ℕ) : ℕ := (seed + i * 1000) % 10000

/-- The per-iteration `runs` value — note `isConsistent` is tested first
here, `isAggressive` only in the `else if`. -/
def runsAt (seed i : ℕ) : ℕ :=
  let m := matchSeed seed i
  if isConsistent seed then 25 + m % 40
  else if isAggressive seed then
    (if m % 4 == 0 then 50 + m % 50 else m % 90)
  else 10 + m % 70

/-- Source: `balls = Math.max(20, Math.floor(runs * (100/baseSR) + (matchSeed % 20) - 10))`. -/
def ballsAt (seed i : ℕ) : ℤ :=
  max 20 (jsFloor ((runsAt seed i : ℚ) * (100 / (baseSR seed : ℚ))
    + (matchSeed seed i % 20 : ℕ) - 10))

/-- One synthesized match record.  `dateMs` is the raw millisecond value of
the source's `matchDate`; the `date` / `dateFormatted` display strings are
its presentation.  Records produced by the synthesizer carry no `economy` or
`wickets` property (those occur only on API-sourced records), which JS reads
as `undefined`; they are modelled as `Option` fields defaulting to `none`. -/
structure MatchRecord where
  matchNumber : ℕ
  opponent : String
  venue : String
  format : String
  dateMs : ℤ
  runs : ℕ
  balls : ℤ
  fours : ℤ
  sixes : ℤ
  strikeRate : ℚ
  result : String
  notOut : Bool
  milestone : Option String
  economy : Option ℚ := none
  wickets : Option ℤ := none
deriving DecidableEq, Repr

/-- The `opponents` catalog of `generateFallbackMatches`. -/
def fallbackOpponents : List String :=
  ["Australia", "England", "India", "Pakistan", "South Africa",
   "New Zealand", "West Indies", "Sri Lanka", "Bangladesh", "Afghanistan",
   "Ireland", "Netherlands"]

/-- The `venues` catalog of `generateFallbackMatches`. -/
def fallbackVenues : List String :=
  ["MCG Melbourne", "Lords London", "Eden Gardens Kolkata",
   "Wankhede Mumbai", "SCG Sydney", "The Oval London",
   "Gaddafi Stadium Lahore", "Newlands Cape Town",
   "Basin Reserve Wellington", "Kensington Oval Barbados"]

/-- The `formats` catalog of `generateFallbackMatches`. -/
def fallbackFormats : List String := ["ODI", "T20I", "Test"]

/-- The record pushed for loop index `i` of `generateFallbackMatches`,
with the name hash already computed (`seed = nameHash`). -/
def matchRecordAt (now : ℤ) (seed i : ℕ) : MatchRecord :=
  let m := matchSeed seed i
  let runs := runsAt seed i
  let balls := ballsAt seed i
  { matchNumber := 10 - i
    opponent := fallbackOpponents.getD (m % fallbackOpponents.length) ""
    venue := fallbackVenues.getD (m % fallbackVenues.length) ""
    format := fallbackFormats.getD (m % fallbackFormats.length) ""
    dateMs := now - ((i * 10 + m % 7 : ℕ) : ℤ) * 24 * 60 * 60 * 1000
    runs := runs
    balls := balls
    fours := max 0 (jsFloor ((runs : ℚ) / 25 + (m % 6 : ℕ)))
    sixes := max 0 (jsFloor ((runs : ℚ) / 40 + (m % 3 : ℕ)))
    strikeRate := if balls > 0 then round1 ((runs : ℚ) / (balls : ℚ) * 100) else 0
    result := if m % 3 ≠ 0 then "Won" else if m % 5 ≠ 0 then "Lost" else "Tied"
    notOut := m % 7 == 0
    milestone :=
      if runs ≥ 100 then some "Century"
      else if runs ≥ 50 then some "Fifty" else none }

/-- The ten-iteration loop of `generateFallbackMatches`, seed-level. -/
def generateMatches (now : ℤ) (seed : ℕ) : List MatchRecord :=
  (List.range 10).map (matchRecordAt now seed)

/-- Source: `generateFallbackMatches(playerName)`: hash the name, then run the loop.
`now` is the ambient `Date.now()`. -/
def generateFallbackMatches (now : ℤ) (playerName : String) : List MatchRecord :=
  generateMatches now (nameHash playerName)

/-! ## Form analyzer (`analyzeRecentForm`, lines 156-195) -/

/-- The result object of `analyzeRecentForm`.  The `summary` field is a
display string interpolating the rounded numeric values already present
here; it is not modelled. -/
structure FormAnalysis where
  streak : String
  momentumScore : ℚ
deriving DecidableEq, Repr

/-- Source: `recentMatches.slice(-5)`: the last five records (the whole list when
it is shorter). -/
def last5 (l : List MatchRecord) : List MatchRecord := l.drop (l.length - 5)

/-- JS `(m.economy || 6.0)`: an absent or zero economy is replaced by 6. -/
def economyOr6 (m : MatchRecord) : ℚ :=
  match m.economy with
  | none => 6
  | some e => if e = 0 then 6 else e

/-- JS `(m.wickets || 0)`. -/
def wicketsOr0 (m : MatchRecord) : ℤ :=
  match m.wickets with
  | none => 0
  | some w => w

/-- Sum of `runs` over a record list (as JS numbers). -/
def sumRuns (l : List MatchRecord) : ℚ := (l.map (fun m => (m.runs : ℚ))).sum

/-- Sum of `strikeRate` over a record list. -/
def sumSR (l : List MatchRecord) : ℚ := (l.map (fun m => m.strikeRate)).sum

/-- Sum of `(m.economy || 6.0)` over a record list. -/
def sumEconomy (l : List MatchRecord) : ℚ := (l.map economyOr6).sum

/-- Source: `avgEconomy = last5.reduce((sum, m) => sum + (m.economy || 6.0), 0) / 5`
— the divisor is the constant 5, not the list length. -/
def avgEconomy (l : List MatchRecord) : ℚ := sumEconomy (last5 l) / 5

/-- Source: `totalWickets = last5.reduce((sum, m) => sum + (m.wickets || 0), 0)`. -/
def totalWickets (l : List MatchRecord) : ℤ := ((last5 l).map wicketsOr0).sum

/-- Source: `avgRuns = last5.reduce((sum, m) => sum + m.runs, 0) / 5` — constant 5. -/
def avgRuns (l : List MatchRecord) : ℚ := sumRuns (last5 l) / 5

/-- Source: `avgSR = last5.reduce((sum, m) => sum + m.strikeRate, 0) / 5` — constant 5. -/
def avgSR (l : List MatchRecord) : ℚ := sumSR (last5 l) / 5

/-- Source: `scores30Plus = last5.filter(m => m.runs >= 30).length`. -/
def scores30Plus (l : List MatchRecord) : ℕ :=
  ((last5 l).filter (fun m => 30 ≤ m.runs)).length

/-- The bowler branch of `analyzeRecentForm`. -/
def bowlerForm (l : List MatchRecord) : FormAnalysis :=
  { streak :=
      if avgEconomy l < 6.5 ∧ 3 ≤ totalWickets l then "hot"
      else if avgEconomy l > 8.0 then "cold" else "steady"
    momentumScore :=
      min 100 (max 20 (100 - avgEconomy l * 10 + (totalWickets l : ℚ) * 5)) }

/-- The batsman branch of `analyzeRecentForm`. -/
def batsmanForm (l : List MatchRecord) : FormAnalysis :=
  { streak :=
      if 35 ≤ avgRuns l ∧ 3 ≤ scores30Plus l then "hot"
      else if avgRuns l < 20 then "cold" else "steady"
    momentumScore :=
      min 100 (max 20 (avgRuns l * 1.5 + avgSR l * 0.3)) }

/-- Source: `analyzeRecentForm(recentMatches, playerRole)`: `null` for a missing or
empty list, otherwise the role-specific analysis. -/
def analyzeRecentForm (recentMatches : Option (List MatchRecord))
    (playerRole : String) : Option FormAnalysis :=
  match recentMatches with
  | none => none
  | some l =>
    if l.length = 0 then none
    else if playerRole == "Bowler" then some (bowlerForm l)
    else some (batsmanForm l)

/-! ## Role-specific career statistics (`generateRoleSpecificStats`,
lines 43-110).  Each `Math.random()` call site draws the next value of the
stream `r`, starting at offset `off`. -/

/-- Bowler-shaped career stats.  `bestFigures` is the template string
interpolating the two drawn numbers. -/
structure BowlerStats where
  totalWickets : ℤ
  totalMatches : ℤ
  bowlingAverage : ℚ
  economyRate : ℚ
  strikeRate : ℚ
  bestFigures : String
  fiveWicketHauls : ℤ
  totalRuns : ℤ
  battingAverage : ℚ
  highestScore : ℤ
deriving DecidableEq, Repr

/-- All-rounder-shaped career stats. -/
structure AllRounderStats where
  totalRuns : ℤ
  totalMatches : ℤ
  centuries : ℤ
  fifties : ℤ
  average : ℚ
  strikeRate : ℚ
  highestScore : ℤ
  totalWickets : ℤ
  bowlingAverage : ℚ
  economyRate : ℚ
  fiveWicketHauls : ℤ
deriving DecidableEq, Repr

/-- Wicket-keeper-shaped career stats. -/
structure WicketKeeperStats where
  totalRuns : ℤ
  totalMatches : ℤ
  centuries : ℤ
  fifties : ℤ
  average : ℚ
  strikeRate : ℚ
  highestScore : ℤ
  totalDismissals : ℤ
  catches : ℤ
  stumpings : ℤ
deriving DecidableEq, Repr

/-- Default batsman-shaped career stats. -/
structure BatsmanStats where
  totalRuns : ℤ
  totalMatches : ℤ
  centuries : ℤ
  fifties : ℤ
  average : ℚ
  strikeRate : ℚ
  highestScore : ℤ
deriving DecidableEq, Repr

/-- The role-shaped career-stats object: field layout depends on role. -/
inductive CareerStats where
  | bowler : BowlerStats → CareerStats
  | allRounder : AllRounderStats → CareerStats
  | wicketKeeper : WicketKeeperStats → CareerStats
  | batsman : BatsmanStats → CareerStats
deriving DecidableEq, Repr

/-- Source: `generateRoleSpecificStats(playerRole, baseAverage, baseStrikeRate,
rankingBonus)`.  Unknown roles fall through to the batsman layout. -/
def generateRoleSpecificStats (playerRole : String)
    (baseAverage baseStrikeRate : ℚ) (rankingBonus : ℤ)
    (r : ℕ → ℚ) (off : ℕ) : CareerStats :=
  if playerRole == "Bowler" then
    .bowler
      { totalWickets := jsFloor (150 + (rankingBonus : ℚ) * 50 + r off * 200)
        totalMatches := jsFloor (80 + r (off + 1) * 120)
        bowlingAverage := round1 (20 + r (off + 2) * 15)
        economyRate := round1 (3.5 + r (off + 3) * 2.5)
        strikeRate := round1 (18 + r (off + 4) * 12)
        bestFigures := toString (jsFloor (4 + r (off + 5) * 6)) ++ "/"
          ++ toString (jsFloor (15 + r (off + 6) * 35))
        fiveWicketHauls := jsFloor ((rankingBonus : ℚ) / 3 + r (off + 7) * 8)
        totalRuns := jsFloor (500 + r (off + 8) * 1500)
        battingAverage := round1 (15 + r (off + 9) * 20)
        highestScore := jsFloor (30 + r (off + 10) * 70) }
  else if playerRole == "All-rounder" then
    .allRounder
      { totalRuns := jsFloor (3000 + (rankingBonus : ℚ) * 400 + r off * 4000)
        totalMatches := jsFloor (80 + r (off + 1) * 120)
        centuries := jsFloor ((rankingBonus : ℚ) / 3 + r (off + 2) * 6)
        fifties := jsFloor (8 + (rankingBonus : ℚ) + r (off + 3) * 15)
        average := round1 (35 + r (off + 4) * 15)
        strikeRate := round1 baseStrikeRate
        highestScore := jsFloor (120 + (rankingBonus : ℚ) * 3 + r (off + 5) * 80)
        totalWickets := jsFloor (80 + (rankingBonus : ℚ) * 20 + r (off + 6) * 120)
        bowlingAverage := round1 (25 + r (off + 7) * 15)
        economyRate := round1 (4.0 + r (off + 8) * 2.0)
        fiveWicketHauls := jsFloor (r (off + 9) * 4) }
  else if playerRole == "Wicket-keeper" then
    .wicketKeeper
      { totalRuns := jsFloor (2500 + (rankingBonus : ℚ) * 350 + r off * 3500)
        totalMatches := jsFloor (70 + r (off + 1) * 100)
        centuries := jsFloor ((rankingBonus : ℚ) / 3 + r (off + 2) * 7)
        fifties := jsFloor (6 + (rankingBonus : ℚ) + r (off + 3) * 12)
        average := round1 baseAverage
        strikeRate := round1 baseStrikeRate
        highestScore := jsFloor (80 + (rankingBonus : ℚ) * 4 + r (off + 4) * 100)
        totalDismissals := jsFloor (200 + (rankingBonus : ℚ) * 30 + r (off + 5) * 250)
        catches := jsFloor (150 + (rankingBonus : ℚ) * 25 + r (off + 6) * 200)
        stumpings := jsFloor (20 + (rankingBonus : ℚ) * 2 + r (off + 7) * 30) }
  else
    .batsman
      { totalRuns := jsFloor (4000 + (rankingBonus : ℚ) * 500 + r off * 5000)
        totalMatches := jsFloor (80 + r (off + 1) * 120)
        centuries := jsFloor ((rankingBonus : ℚ) / 2 + r (off + 2) * 12)
        fifties := jsFloor (10 + (rankingBonus : ℚ) + r (off + 3) * 20)
        average := round1 baseAverage
        strikeRate := round1 baseStrikeRate
        highestScore := jsFloor (120 + (rankingBonus : ℚ) * 5 + r (off + 4) * 150) }

/-- Number of `Math.random()` draws consumed by each branch of
`generateRoleSpecificStats` (11, 10, 8 and 5 respectively). -/
def statsRandCount (playerRole : String) : ℕ :=
  if playerRole == "Bowler" then 11
  else if playerRole == "All-rounder" then 10
  else if playerRole == "Wicket-keeper" then 8
  else 5

/-- Probe: the `totalMatches` field common to all four career-stat
layouts. -/
def careerTotalMatches : CareerStats → ℤ
  | .bowler s => s.totalMatches
  | .allRounder s => s.totalMatches
  | .wicketKeeper s => s.totalMatches
  | .batsman s => s.totalMatches

/-- One entry of the `playerSkills` radar list. -/
structure Skill where
  skill : String
  value : ℤ
deriving DecidableEq, Repr

/-- Source: `generateRoleSpecificSkills(playerRole, rankingBonus)`; six
`Math.random()` draws per branch. -/
def generateRoleSpecificSkills (playerRole : String) (rankingBonus : ℤ)
    (r : ℕ → ℚ) (off : ℕ) : List Skill :=
  let bonus : ℚ := (rankingBonus : ℚ) * 2
  if playerRole == "Bowler" then
    [ ⟨"Pace/Spin", jsFloor (65 + bonus + r off * 30)⟩,
      ⟨"Accuracy", jsFloor (70 + bonus + r (off + 1) * 25)⟩,
      ⟨"Swing/Turn", jsFloor (60 + bonus + r (off + 2) * 35)⟩,
      ⟨"Variations", jsFloor (55 + bonus + r (off + 3) * 40)⟩,
      ⟨"Pressure Bowling", jsFloor (50 + bonus + r (off + 4) * 45)⟩,
      ⟨"Death Bowling", jsFloor (45 + bonus + r (off + 5) * 50)⟩ ]
  else if playerRole == "All-rounder" then
    [ ⟨"Batting Technique", jsFloor (60 + bonus + r off * 30)⟩,
      ⟨"Power Hitting", jsFloor (55 + bonus + r (off + 1) * 35)⟩,
      ⟨"Bowling Accuracy", jsFloor (58 + bonus + r (off + 2) * 32)⟩,
      ⟨"Fielding", jsFloor (65 + bonus + r (off + 3) * 30)⟩,
      ⟨"Match Awareness", jsFloor (70 + bonus + r (off + 4) * 25)⟩,
      ⟨"Versatility", jsFloor (75 + bonus + r (off + 5) * 20)⟩ ]
  else if playerRole == "Wicket-keeper" then
    [ ⟨"Keeping Skills", jsFloor (75 + bonus + r off * 20)⟩,
      ⟨"Batting Technique", jsFloor (60 + bonus + r (off + 1) * 30)⟩,
      ⟨"Reflexes", jsFloor (80 + bonus + r (off + 2) * 15)⟩,
      ⟨"Leadership", jsFloor (65 + bonus + r (off + 3) * 30)⟩,
      ⟨"Match Reading", jsFloor (70 + bonus + r (off + 4) * 25)⟩,
      ⟨"Agility", jsFloor (75 + bonus + r (off + 5) * 20)⟩ ]
  else
    [ ⟨"Power Hitting", jsFloor (60 + bonus + r off * 35)⟩,
      ⟨"Timing", jsFloor (65 + bonus + r (off + 1) * 30)⟩,
      ⟨"Placement", jsFloor (55 + bonus + r (off + 2) * 40)⟩,
      ⟨"Running", jsFloor (70 + bonus + r (off + 3) * 25)⟩,
      ⟨"Pressure Handling", jsFloor (50 + bonus + r (off + 4) * 45)⟩,
      ⟨"Consistency", jsFloor (60 + bonus + r (off + 5) * 35)⟩ ]

/-! ## Seed-derived analytics generators (lines 197-420).  All of these are
pure functions of the name hash (`factor = nameHash % 100`); none draws from
`Math.random()`.  Source fields produced through `.toFixed(1)` are display
strings of the one-decimal rounding; they are modelled as the rounded
rational value. -/

/-- Bowler shape of `generateSituationalStats`, flattened: field names are
the `group` + `field` path of the nested source object. -/
structure BowlerSituational where
  defendingEconomy : ℚ
  defendingStrikeRate : ℚ
  defendingAverage : ℚ
  chasingEconomy : ℚ
  chasingStrikeRate : ℚ
  chasingAverage : ℚ
  pressureDeathOversEconomy : ℚ
  pressurePowerplayWickets : ℤ
  pressureSuccessRate : ℤ
deriving DecidableEq, Repr

/-- Batsman shape of `generateSituationalStats`, flattened. -/
structure BatsmanSituational where
  chasingAverage : ℚ
  chasingStrikeRate : ℚ
  chasingSuccessRate : ℤ
  defendingAverage : ℚ
  defendingStrikeRate : ℚ
  defendingSuccessRate : ℤ
  pressureLastTenOvers : ℚ
  pressureBoundaries : ℤ
  pressureClutchScore : ℤ
deriving DecidableEq, Repr

/-- The role-shaped situational-stats object. -/
inductive SituationalStats where
  | bowler : BowlerSituational → SituationalStats
  | batsman : BatsmanSituational → SituationalStats
deriving DecidableEq, Repr

/-- Source: `generateSituationalStats(playerName, playerRole, nameHash)` — the
`playerName` argument is unused in the source body. -/
def generateSituationalStats (_playerName : String) (playerRole : String)
    (nameHash : ℕ) : SituationalStats :=
  let factor := nameHash % 100
  if playerRole == "Bowler" then
    .bowler
      { defendingEconomy := round1 (5.2 + (factor % 15 : ℕ) / 10)
        defendingStrikeRate := round1 (18 + (factor % 12 : ℕ))
        defendingAverage := round1 (22 + (factor % 18 : ℕ))
        chasingEconomy := round1 (6.1 + (factor % 20 : ℕ) / 10)
        chasingStrikeRate := round1 (21 + (factor % 15 : ℕ))
        chasingAverage := round1 (25 + (factor % 15 : ℕ))
        pressureDeathOversEconomy := round1 (7.8 + (factor % 25 : ℕ) / 10)
        pressurePowerplayWickets := jsFloor (8 + (factor % 12 : ℕ))
        pressureSuccessRate := jsFloor (65 + (factor % 25 : ℕ)) }
  else
    .batsman
      { chasingAverage := round1 (38 + (factor % 25 : ℕ))
        chasingStrikeRate := round1 (89 + (factor % 35 : ℕ))
        chasingSuccessRate := jsFloor (68 + (factor % 25 : ℕ))
        defendingAverage := round1 (35 + (factor % 20 : ℕ))
        defendingStrikeRate := round1 (78 + (factor % 30 : ℕ))
        defendingSuccessRate := jsFloor (72 + (factor % 20 : ℕ))
        pressureLastTenOvers := round1 (82 + (factor % 30 : ℕ))
        pressureBoundaries := jsFloor (12 + (factor % 8 : ℕ))
        pressureClutchScore := jsFloor (67 + (factor % 28 : ℕ)) }

/-- One bowling phase row of `generatePhasePerformance`. -/
structure BowlerPhase where
  phase : String
  economy : ℚ
  strikeRate : ℚ
  wickets : ℤ
deriving DecidableEq, Repr

/-- One batting phase row of `generatePhasePerformance`. -/
structure BatsmanPhase where
  phase : String
  average : ℚ
  strikeRate : ℚ
  runs : ℤ
deriving DecidableEq, Repr

/-- The role-shaped phase-performance list. -/
inductive PhasePerformance where
  | bowler : List BowlerPhase → PhasePerformance
  | batsman : List BatsmanPhase → PhasePerformance
deriving DecidableEq, Repr

/-- Source: `generatePhasePerformance(playerRole, nameHash)`. -/
def generatePhasePerformance (playerRole : String) (nameHash : ℕ) :
    PhasePerformance :=
  let factor := nameHash % 100
  if playerRole == "Bowler" then
    .bowler
      [ { phase := "Powerplay (1-6)"
          economy := round1 (5.8 + (factor % 15 : ℕ) / 10)
          strikeRate := round1 (16 + (factor % 8 : ℕ))
          wickets := jsFloor (12 + (factor % 18 : ℕ)) },
        { phase := "Middle (7-15)"
          economy := round1 (4.9 + (factor % 12 : ℕ) / 10)
          strikeRate := round1 (19 + (factor % 10 : ℕ))
          wickets := jsFloor (25 + (factor % 25 : ℕ)) },
        { phase := "Death (16-20)"
          economy := round1 (8.2 + (factor % 20 : ℕ) / 10)
          strikeRate := round1 (14 + (factor % 8 : ℕ))
          wickets := jsFloor (8 + (factor % 12 : ℕ)) } ]
  else
    .batsman
      [ { phase := "Powerplay (1-6)"
          average := round1 (28 + (factor % 15 : ℕ))
          strikeRate := round1 (135 + (factor % 40 : ℕ))
          runs := jsFloor (850 + (factor % 400 : ℕ)) },
        { phase := "Middle (7-15)"
          average := round1 (42 + (factor % 20 : ℕ))
          strikeRate := round1 (89 + (factor % 25 : ℕ))
          runs := jsFloor (1200 + (factor % 600 : ℕ)) },
        { phase := "Death (16-20)"
          average := round1 (31 + (factor % 18 : ℕ))
          strikeRate := round1 (167 + (factor % 45 : ℕ))
          runs := jsFloor (720 + (factor % 350 : ℕ)) } ]

/-- One of the `home` / `away` / `neutral` splits of
`generateHomeAwayStats`. -/
structure VenueSplit where
  matchesPlayed : ℤ
  average : ℚ
  strikeRate : ℚ
  runs : ℤ
deriving DecidableEq, Repr

/-- One `bestVenues` row of `generateHomeAwayStats`. -/
structure BestVenue where
  venue : String
  average : ℚ
  matchesPlayed : ℤ
deriving DecidableEq, Repr

/-- The result of `generateHomeAwayStats`. -/
structure HomeAwayStats where
  home : VenueSplit
  away : VenueSplit
  neutral : VenueSplit
  bestVenues : List BestVenue
deriving DecidableEq, Repr

/-- The venue literal containing a quote character (char 39). -/
def lordsVenueName : String := "Lord" ++ (Char.ofNat 39).toString ++ "s, London"

/-- Source: `generateHomeAwayStats(nameHash, teamName)`. -/
def generateHomeAwayStats (nameHash : ℕ) (teamName : String) : HomeAwayStats :=
  let factor := nameHash % 100
  { home :=
      { matchesPlayed := jsFloor (35 + (factor % 25 : ℕ))
        average := round1 (45 + (factor % 20 : ℕ))
        strikeRate := round1 (88 + (factor % 25 : ℕ))
        runs := jsFloor (1800 + (factor % 800 : ℕ)) }
    away :=
      { matchesPlayed := jsFloor (28 + (factor % 20 : ℕ))
        average := round1 (38 + (factor % 18 : ℕ))
        strikeRate := round1 (82 + (factor % 20 : ℕ))
        runs := jsFloor (1200 + (factor % 600 : ℕ)) }
    neutral :=
      { matchesPlayed := jsFloor (15 + (factor % 12 : ℕ))
        average := round1 (41 + (factor % 16 : ℕ))
        strikeRate := round1 (85 + (factor % 22 : ℕ))
        runs := jsFloor (650 + (factor % 300 : ℕ)) }
    bestVenues :=
      [ { venue := lordsVenueName
          average := round1 (52 + (factor % 20 : ℕ))
          matchesPlayed := jsFloor (6 + (factor % 8 : ℕ)) },
        { venue := "MCG, Melbourne"
          average := round1 (48 + (factor % 25 : ℕ))
          matchesPlayed := jsFloor (4 + (factor % 6 : ℕ)) },
        { venue := "Home Ground, " ++ teamName
          average := round1 (55 + (factor % 15 : ℕ))
          matchesPlayed := jsFloor (8 + (factor % 10 : ℕ)) } ] }

/-- One month row of `generateTrendData`. -/
structure TrendPoint where
  month : String
  average : ℚ
  strikeRate : ℚ
deriving DecidableEq, Repr

/-- Source: `generateTrendData(playerName)`: `months.slice(-6)` of the twelve-month
list is the constant `[Jul..Dec]`. -/
def generateTrendData (playerName : String) : List TrendPoint :=
  let h := nameHash playerName
  (List.range 6).map (fun index =>
    { month := ["Jul", "Aug", "Sep", "Oct", "Nov", "Dec"].getD index ""
      average := round1 ((35 + (h + index * 3) % 25 : ℕ))
      strikeRate := round1 ((85 + (h + index * 5) % 40 : ℕ)) })

/-- One format row of `generateFormatData`. -/
structure FormatPerformance where
  format : String
  matchesPlayed : ℕ
  average : ℚ
  strikeRate : ℚ
  runs : ℤ
deriving DecidableEq, Repr

/-- Source: `generateFormatData(playerName)`. -/
def generateFormatData (playerName : String) : List FormatPerformance :=
  let h := nameHash playerName
  (List.range 3).map (fun index =>
    let matchCount := 45 + (h + index * 7) % 30
    let average := 35 + (h + index * 4) % 20
    { format := ["T20I", "ODI", "Test"].getD index ""
      matchesPlayed := matchCount
      average := round1 (average : ℕ)
      strikeRate := round1 ((80 + (h + index * 6) % 35 : ℕ))
      runs := jsFloor ((average : ℚ) * (matchCount : ℕ)) })

/-- One opponent row of `generateOpponentData`. -/
structure OpponentPerformance where
  opponent : String
  matchesPlayed : ℕ
  average : ℚ
  runs : ℕ
deriving DecidableEq, Repr

/-- Source: `generateOpponentData(playerName)`. -/
def generateOpponentData (playerName : String) : List OpponentPerformance :=
  let h := nameHash playerName
  (List.range 10).map (fun index =>
    { opponent := ["Australia", "England", "India", "South Africa",
        "New Zealand", "Pakistan", "West Indies", "Sri Lanka", "Bangladesh",
        "Afghanistan"].getD index ""
      matchesPlayed := 8 + (h + index * 3) % 12
      average := round1 ((30 + (h + index * 5) % 25 : ℕ))
      runs := 180 + (h + index * 20) % 300 })

/-! ## Full pipeline (`generatePlayerStats`, lines 324-380) -/

/-- The object returned by `generatePlayerStats`. -/
structure PlayerStats where
  playerName : String
  teamName : String
  playerRole : String
  hasRealData : Bool
  dataSources : List String
  careerStats : CareerStats
  recentForm : List MatchRecord
  recentFormAnalysis : Option FormAnalysis
  situationalStats : SituationalStats
  phasePerformance : PhasePerformance
  homeAwayStats : HomeAwayStats
  performanceTrend : List TrendPoint
  formatPerformance : List FormatPerformance
  vsOpponents : List OpponentPerformance
  playerSkills : List Skill
deriving DecidableEq, Repr

/-- Source: `generatePlayerStats(playerName, teamName, playerRole)`.  The ambient
`Math.random()` source is the stream `r`: draw 0 is `teamRanking`
(`Math.floor(Math.random() * 10) + 1` — the source comment says "based on
name" but the value is an unseeded random draw), draws 1 and 2 feed
`baseAverage` and `baseStrikeRate`, the career-stats generator consumes the
next `statsRandCount playerRole` draws, and the skills generator the six
after those.  Everything else is a pure function of the name hash (and of
`now` for the match dates). -/
def generatePlayerStats (now : ℤ) (r : ℕ → ℚ)
    (playerName teamName playerRole : String) : PlayerStats :=
  let teamRanking : ℤ := jsFloor (r 0 * 10) + 1
  let rankingBonus : ℤ := max 0 (15 - teamRanking)
  let baseAverage : ℚ := 25 + (rankingBonus : ℚ) * 2 + r 1 * 20
  let baseStrikeRate : ℚ := 70 + (rankingBonus : ℚ) * 3 + r 2 * 30
  let careerStats :=
    generateRoleSpecificStats playerRole baseAverage baseStrikeRate
      rankingBonus r 3
  let recentForm := generateFallbackMatches now playerName
  let h := nameHash playerName
  { playerName := playerName
    teamName := teamName
    playerRole := playerRole
    hasRealData := false
    dataSources := ["dummy_data"]
    careerStats := careerStats
    recentForm := recentForm
    recentFormAnalysis := analyzeRecentForm (some recentForm) playerRole
    situationalStats := generateSituationalStats playerName playerRole h
    phasePerformance := generatePhasePerformance playerRole h
    homeAwayStats := generateHomeAwayStats h teamName
    performanceTrend := generateTrendData playerName
    formatPerformance := generateFormatData playerName
    vsOpponents := generateOpponentData playerName
    playerSkills :=
      generateRoleSpecificSkills playerRole rankingBonus r
        (3 + statsRandCount playerRole) }

/-! ## Theorems -/

/-- Helper: `probA` is always between 20 and 80. -/
theorem probA_bounds (tA tB : Team) : 20 ≤ probA tA tB ∧ probA tA tB ≤ 80 :=
  ⟨le_max_left _ _, max_le (by norm_num) (min_le_left _ _)⟩

/-- C1: for every pair of distinct catalog teams and every match context,
the prediction satisfies `probability + loserProbability = 100`, the
winner's probability lies in `[50, 80]`, and the winner's probability is the
larger of the two sides' probabilities. -/
theorem predict_probability_sum_and_range
    (tA tB : Team) (hA : tA ∈ availableTeams) (hB : tB ∈ availableTeams)
    (hne : tA ≠ tB) (tossWinner venue : String) (rand : ℚ) :
    (predict tA tB tossWinner venue rand).probability
        + (predict tA tB tossWinner venue rand).loserProbability = 100 ∧
    50 ≤ (predict tA tB tossWinner venue rand).probability ∧
    (predict tA tB tossWinner venue rand).probability ≤ 80 ∧
    (predict tA tB tossWinner venue rand).loserProbability
        ≤ (predict tA tB tossWinner venue rand).probability := by
  obtain ⟨h20, h80⟩ := probA_bounds tA tB
  have hp : (predict tA tB tossWinner venue rand).probability
      = if probA tA tB > 100 - probA tA tB then probA tA tB
        else 100 - probA tA tB := rfl
  have hl : (predict tA tB tossWinner venue rand).loserProbability
      = if probA tA tB > 100 - probA tA tB then 100 - probA tA tB
        else probA tA tB := rfl
  rw [hp, hl]
  split_ifs <;> omega

/-- Witness for C1 at India vs Australia. -/
theorem predict_probability_sum_and_range_witness :
    (⟨"India", 1, "IND"⟩ : Team) ∈ availableTeams ∧
    (⟨"Australia", 2, "AUS"⟩ : Team) ∈ availableTeams ∧
    (⟨"India", 1, "IND"⟩ : Team) ≠ ⟨"Australia", 2, "AUS"⟩ ∧
    ((predict ⟨"India", 1, "IND"⟩ ⟨"Australia", 2, "AUS"⟩ "India"
        "MCG, Melbourne" 0).probability
      + (predict ⟨"India", 1, "IND"⟩ ⟨"Australia", 2, "AUS"⟩ "India"
        "MCG, Melbourne" 0).loserProbability = 100 ∧
    50 ≤ (predict ⟨"India", 1, "IND"⟩ ⟨"Australia", 2, "AUS"⟩ "India"
        "MCG, Melbourne" 0).probability ∧
    (predict ⟨"India", 1, "IND"⟩ ⟨"Australia", 2, "AUS"⟩ "India"
        "MCG, Melbourne" 0).probability ≤ 80 ∧
    (predict ⟨"India", 1, "IND"⟩ ⟨"Australia", 2, "AUS"⟩ "India"
        "MCG, Melbourne" 0).loserProbability
      ≤ (predict ⟨"India", 1, "IND"⟩ ⟨"Australia", 2, "AUS"⟩ "India"
        "MCG, Melbourne" 0).probability) :=
  ⟨by decide, by decide, by decide,
    predict_probability_sum_and_range _ _ (by decide) (by decide) (by decide)
      "India" "MCG, Melbourne" 0⟩

/-- C6: the concrete scenario India (ranking 1) vs Australia (ranking 2),
toss winner India, venue "Home Ground, India": winner is India with
probability 53 (rankingDiff 1, baseProbA 53) and the factors list is exactly
Team Ranking 5, Toss Advantage 15, Home Advantage 10, Format Experience 20,
in that order. -/
theorem predict_india_australia_scenario (rand : ℚ) :
    (predict ⟨"India", 1, "IND"⟩ ⟨"Australia", 2, "AUS"⟩ "India"
        "Home Ground, India" rand).winner = "India" ∧
    (predict ⟨"India", 1, "IND"⟩ ⟨"Australia", 2, "AUS"⟩ "India"
        "Home Ground, India" rand).probability = 53 ∧
    (predict ⟨"India", 1, "IND"⟩ ⟨"Australia", 2, "AUS"⟩ "India"
        "Home Ground, India" rand).loserProbability = 47 ∧
    (predict ⟨"India", 1, "IND"⟩ ⟨"Australia", 2, "AUS"⟩ "India"
        "Home Ground, India" rand).factors =
      [⟨"Team Ranking", 5⟩, ⟨"Toss Advantage", 15⟩,
       ⟨"Home Advantage", 10⟩, ⟨"Format Experience", 20⟩] :=
  ⟨rfl, rfl, rfl, rfl⟩

/-- Helper: the "Home Advantage" impact is 10 exactly when the winner is one
of the three hard-coded teams and the venue contains the winner's name. -/
theorem homeAdvantageImpact_eq_ten_iff (venue w : String) :
    homeAdvantageImpact venue w = 10 ↔
      ((w = "India" ∨ w = "Australia" ∨ w = "England")
        ∧ strIncludes venue w = true) := by
  unfold homeAdvantageImpact
  split_ifs with h
  · simp only [Bool.or_eq_true, Bool.and_eq_true, beq_iff_eq] at h
    constructor
    · intro _
      rcases h with (⟨hi, rfl⟩ | ⟨hi, rfl⟩) | ⟨hi, rfl⟩
      · exact ⟨Or.inl rfl, hi⟩
      · exact ⟨Or.inr (Or.inl rfl), hi⟩
      · exact ⟨Or.inr (Or.inr rfl), hi⟩
    · intro _; rfl
  · simp only [Bool.or_eq_true, Bool.and_eq_true, beq_iff_eq] at h
    constructor
    · intro h10; exact absurd h10 (by norm_num)
    · rintro ⟨hw, hincl⟩
      exfalso
      apply h
      rcases hw with rfl | rfl | rfl
      · exact Or.inl (Or.inl ⟨hincl, rfl⟩)
      · exact Or.inl (Or.inr ⟨hincl, rfl⟩)
      · exact Or.inr ⟨hincl, rfl⟩

/-- Helper: the "Home Advantage" impact is 0 or 10. -/
theorem homeAdvantageImpact_zero_or_ten (venue w : String) :
    homeAdvantageImpact venue w = 0 ∨ homeAdvantageImpact venue w = 10 := by
  unfold homeAdvantageImpact
  split_ifs <;> simp

/-- Helper: membership of a "Home Advantage" factor in the filtered factors
list, for an arbitrary ranking difference, toss winner and winner. -/
theorem homeAdvantage_mem_filtered (rd : ℤ) (tossWinner venue w : String) :
    (((⟨"Home Advantage", 10⟩ : Factor) ∈
      ([ ⟨"Team Ranking", |rd| * 5⟩,
         ⟨"Toss Advantage", if tossWinner == w then 15 else 0⟩,
         ⟨"Home Advantage", homeAdvantageImpact venue w⟩,
         ⟨"Format Experience", 20⟩ ] : List Factor).filter
            (fun factor => factor.impact > 0)) ↔
      homeAdvantageImpact venue w = 10) ∧
    ∀ i : ℤ, (⟨"Home Advantage", i⟩ : Factor) ∈
      ([ ⟨"Team Ranking", |rd| * 5⟩,
         ⟨"Toss Advantage", if tossWinner == w then 15 else 0⟩,
         ⟨"Home Advantage", homeAdvantageImpact venue w⟩,
         ⟨"Format Experience", 20⟩ ] : List Factor).filter
            (fun factor => factor.impact > 0) → i = 10 := by
  constructor
  · simp only [List.mem_filter, List.mem_cons, List.not_mem_nil, or_false,
      Factor.mk.injEq, decide_eq_true_eq]
    constructor
    · rintro ⟨h1 | h1 | h1 | h1, hpos⟩
      · exact absurd h1.1 (by decide)
      · exact absurd h1.1 (by decide)
      · exact h1.2.symm
      · exact absurd h1.1 (by decide)
    · intro h10
      exact ⟨Or.inr (Or.inr (Or.inl ⟨trivial, h10.symm⟩)), by omega⟩
  · intro i
    simp only [List.mem_filter, List.mem_cons, List.not_mem_nil, or_false,
      Factor.mk.injEq, decide_eq_true_eq]
    rintro ⟨h1 | h1 | h1 | h1, hpos⟩
    · exact absurd h1.1 (by decide)
    · exact absurd h1.1 (by decide)
    · obtain ⟨-, h2⟩ := h1
      rcases homeAdvantageImpact_zero_or_ten venue w with h0 | h0 <;> omega
    · exact absurd h1.1 (by decide)

/-- C5 counterexample: Pakistan vs Sri Lanka at a venue containing the
winner's name ("Pakistan").  The venue textually contains the predicted
winner's name, yet no "Home Advantage" factor appears in the factors list
(its impact is 0, not 10): the rule holds only for India, Australia and
England, not for every catalog team. -/
theorem predict_home_advantage_counterexample :
    (predict ⟨"Pakistan", 6, "PAK"⟩ ⟨"Sri Lanka", 8, "SL"⟩ "X"
        "National Stadium, Pakistan" 0).winner = "Pakistan" ∧
    strIncludes "National Stadium, Pakistan"
      (predict ⟨"Pakistan", 6, "PAK"⟩ ⟨"Sri Lanka", 8, "SL"⟩ "X"
        "National Stadium, Pakistan" 0).winner = true ∧
    ∀ f ∈ (predict ⟨"Pakistan", 6, "PAK"⟩ ⟨"Sri Lanka", 8, "SL"⟩ "X"
        "National Stadium, Pakistan" 0).factors,
      f.name ≠ "Home Advantage" := by decide

/-- C5 amended: for every pair of distinct catalog teams and every context,
a "Home Advantage" factor (necessarily of impact 10) appears in the factors
list if and only if the predicted winner is one of India, Australia or
England AND the venue name textually contains the winner's name; a
zero-impact Home Advantage entry is always excluded. -/
theorem predict_home_advantage_amended
    (tA tB : Team) (hA : tA ∈ availableTeams) (hB : tB ∈ availableTeams)
    (hne : tA ≠ tB) (tossWinner venue : String) (rand : ℚ) :
    (((⟨"Home Advantage", 10⟩ : Factor) ∈
        (predict tA tB tossWinner venue rand).factors) ↔
      (((predict tA tB tossWinner venue rand).winner = "India" ∨
        (predict tA tB tossWinner venue rand).winner = "Australia" ∨
        (predict tA tB tossWinner venue rand).winner = "England")
        ∧ strIncludes venue
            (predict tA tB tossWinner venue rand).winner = true)) ∧
    ∀ i : ℤ, (⟨"Home Advantage", i⟩ : Factor) ∈
        (predict tA tB tossWinner venue rand).factors → i = 10 := by
  have h := homeAdvantage_mem_filtered (tB.ranking - tA.ranking)
    tossWinner venue ((predict tA tB tossWinner venue rand).winner)
  exact ⟨h.1.trans (homeAdvantageImpact_eq_ten_iff venue _), h.2⟩

/-- Witness for C5 amended at India vs Australia, venue "Home Ground,
India". -/
theorem predict_home_advantage_amended_witness :
    (⟨"India", 1, "IND"⟩ : Team) ∈ availableTeams ∧
    (⟨"Australia", 2, "AUS"⟩ : Team) ∈ availableTeams ∧
    (⟨"India", 1, "IND"⟩ : Team) ≠ ⟨"Australia", 2, "AUS"⟩ ∧
    ((((⟨"Home Advantage", 10⟩ : Factor) ∈
        (predict ⟨"India", 1, "IND"⟩ ⟨"Australia", 2, "AUS"⟩ "India"
          "Home Ground, India" 0).factors) ↔
      (((predict ⟨"India", 1, "IND"⟩ ⟨"Australia", 2, "AUS"⟩ "India"
          "Home Ground, India" 0).winner = "India" ∨
        (predict ⟨"India", 1, "IND"⟩ ⟨"Australia", 2, "AUS"⟩ "India"
          "Home Ground, India" 0).winner = "Australia" ∨
        (predict ⟨"India", 1, "IND"⟩ ⟨"Australia", 2, "AUS"⟩ "India"
          "Home Ground, India" 0).winner = "England")
        ∧ strIncludes "Home Ground, India"
            (predict ⟨"India", 1, "IND"⟩ ⟨"Australia", 2, "AUS"⟩ "India"
              "Home Ground, India" 0).winner = true)) ∧
    ∀ i : ℤ, (⟨"Home Advantage", i⟩ : Factor) ∈
        (predict ⟨"India", 1, "IND"⟩ ⟨"Australia", 2, "AUS"⟩ "India"
          "Home Ground, India" 0).factors → i = 10) :=
  ⟨by decide, by decide, by decide,
    predict_home_advantage_amended _ _ (by decide) (by decide) (by decide)
      "India" "Home Ground, India" 0⟩

/-- C2 counterexample: seed 0 satisfies both archetype predicates, yet
`baseSR` is 85 (the aggressive value — `isAggressive` is checked first
there, not `isConsistent` as the claim says it should be checked for
`baseStrikeRate`), and the first match's runs are 25, the consistent
narrow-band value, whereas the aggressive boom/bust formula the claim
prescribes would yield 50 at this sub-seed. -/
theorem dual_archetype_precedence_counterexample :
    isAggressive 0 = true ∧ isConsistent 0 = true ∧
    baseSR 0 = 85 ∧ baseSR 0 ≠ 70 ∧
    runsAt 0 0 = 25 ∧
    (if matchSeed 0 0 % 4 == 0 then 50 + matchSeed 0 0 % 50
      else matchSeed 0 0 % 90) = 50 ∧
    runsAt 0 0 ≠ 50 := by decide

/-- C2 amended: for a seed satisfying both archetype predicates,
`isAggressive` wins the `baseStrikeRate` selection (value 85) while
`isConsistent` wins the runs branch, so every iteration's runs use the
consistent narrow-band formula `25 + matchSeed % 40`. -/
theorem dual_archetype_precedence (seed : ℕ)
    (h3 : seed % 3 = 0) (h4 : seed % 4 = 0) :
    baseSR seed = 85 ∧
    ∀ i : ℕ, runsAt seed i = 25 + matchSeed seed i % 40 := by
  have ha : isAggressive seed = true := by simp [isAggressive, h3]
  have hc : isConsistent seed = true := by simp [isConsistent, h4]
  refine ⟨by simp [baseSR, ha], fun i => by simp [runsAt, hc]⟩

/-- Witness for C2 amended at seed 0. -/
theorem dual_archetype_precedence_witness :
    (0 : ℕ) % 3 = 0 ∧ (0 : ℕ) % 4 = 0 ∧
    (baseSR 0 = 85 ∧ ∀ i : ℕ, runsAt 0 i = 25 + matchSeed 0 i % 40) :=
  ⟨by decide, by decide, dual_archetype_precedence 0 (by decide) (by decide)⟩

/-- Helper: the computational fields of a generated record. -/
theorem matchRecordAt_spec (now : ℤ) (seed i : ℕ) :
    (matchRecordAt now seed i).runs = runsAt seed i ∧
    (matchRecordAt now seed i).balls = ballsAt seed i ∧
    (matchRecordAt now seed i).strikeRate =
      (if ballsAt seed i > 0
        then round1 ((runsAt seed i : ℚ) / (ballsAt seed i : ℚ) * 100)
        else 0) ∧
    (matchRecordAt now seed i).milestone =
      (if runsAt seed i ≥ 100 then some "Century"
        else if runsAt seed i ≥ 50 then some "Fifty" else none) :=
  ⟨rfl, rfl, rfl, rfl⟩

/-- C4: for every seed the synthesizer returns exactly 10 records, each with
`strikeRate = round1(runs/balls*100)` when `balls > 0` and 0 otherwise, and
with `milestone` equal to Century / Fifty / none exactly by the runs
thresholds. -/
theorem generateMatches_count_strikeRate_milestone (now : ℤ) (seed : ℕ) :
    (generateMatches now seed).length = 10 ∧
    ∀ m ∈ generateMatches now seed,
      (0 < m.balls → m.strikeRate = round1 ((m.runs : ℚ) / (m.balls : ℚ) * 100)) ∧
      (m.balls ≤ 0 → m.strikeRate = 0) ∧
      (m.milestone = some "Century" ↔ 100 ≤ m.runs) ∧
      (m.milestone = some "Fifty" ↔ 50 ≤ m.runs ∧ m.runs < 100) ∧
      (m.milestone = none ↔ m.runs < 50) := by
  refine ⟨by simp [generateMatches], ?_⟩
  intro m hm
  simp only [generateMatches, List.mem_map, List.mem_range] at hm
  obtain ⟨i, hi, rfl⟩ := hm
  obtain ⟨hr, hb, hs, hmil⟩ := matchRecordAt_spec now seed i
  rw [hr, hb, hs, hmil]
  refine ⟨fun hpos => ?_, fun hnonpos => ?_, ?_, ?_, ?_⟩
  · rw [if_pos hpos]
  · rw [if_neg (by omega)]
  · split_ifs with h1 h2 <;> simp <;> omega
  · split_ifs with h1 h2 <;> simp <;> omega
  · split_ifs with h1 h2 <;> simp <;> omega

/-- Witness for C4 at `now = 0`, seed 0 (the inner quantifier retains its
membership hypothesis; C4's outer inputs are instantiated). -/
theorem generateMatches_count_strikeRate_milestone_witness :
    (generateMatches 0 0).length = 10 ∧
    ∀ m ∈ generateMatches 0 0,
      (0 < m.balls → m.strikeRate = round1 ((m.runs : ℚ) / (m.balls : ℚ) * 100)) ∧
      (m.balls ≤ 0 → m.strikeRate = 0) ∧
      (m.milestone = some "Century" ↔ 100 ≤ m.runs) ∧
      (m.milestone = some "Fifty" ↔ 50 ≤ m.runs ∧ m.runs < 100) ∧
      (m.milestone = none ↔ m.runs < 50) :=
  generateMatches_count_strikeRate_milestone 0 0

/-- Helper: the runs formula is bounded by 99 in every branch. -/
theorem runsAt_le_99 (seed i : ℕ) : runsAt seed i ≤ 99 := by
  simp only [runsAt]
  split_ifs <;> omega

/-- C8: every generated runs value is at most 99 (at most 64 in the
consistent branch and at most 79 in the default branch), so no generated
record ever carries the Century milestone. -/
theorem generate_runs_bounded_no_century (now : ℤ) (seed i : ℕ) :
    runsAt seed i ≤ 99 ∧
    (isConsistent seed = true → runsAt seed i ≤ 64) ∧
    (isConsistent seed = false → isAggressive seed = false →
      runsAt seed i ≤ 79) ∧
    ∀ m ∈ generateMatches now seed,
      m.runs ≤ 99 ∧ m.milestone ≠ some "Century" := by
  refine ⟨runsAt_le_99 seed i, fun hc => ?_, fun hc ha => ?_, ?_⟩
  · simp [runsAt, hc]
    omega
  · simp [runsAt, hc, ha]
    omega
  · intro m hm
    simp only [generateMatches, List.mem_map, List.mem_range] at hm
    obtain ⟨j, hj, rfl⟩ := hm
    obtain ⟨hr, -, -, hmil⟩ := matchRecordAt_spec now seed j
    rw [hr, hmil]
    have := runsAt_le_99 seed j
    refine ⟨this, ?_⟩
    rw [if_neg (by omega)]
    split_ifs <;> simp

/-- Witness for C8 at `now = 0`, seed 0, index 0. -/
theorem generate_runs_bounded_no_century_witness :
    runsAt 0 0 ≤ 99 ∧
    (isConsistent 0 = true → runsAt 0 0 ≤ 64) ∧
    (isConsistent 0 = false → isAggressive 0 = false → runsAt 0 0 ≤ 79) ∧
    ∀ m ∈ generateMatches 0 0, m.runs ≤ 99 ∧ m.milestone ≠ some "Century" :=
  generate_runs_bounded_no_century 0 0 0

/-- C9: every generated record has `balls ≥ 20` (from the `Math.max(20, _)`),
so the `balls = 0` fallback for `strikeRate` is unreachable and `strikeRate`
is always the rounded `runs/balls*100`. -/
theorem generate_balls_ge_20 (now : ℤ) (seed : ℕ) :
    ∀ m ∈ generateMatches now seed,
      20 ≤ m.balls ∧
      m.strikeRate = round1 ((m.runs : ℚ) / (m.balls : ℚ) * 100) := by
  intro m hm
  simp only [generateMatches, List.mem_map, List.mem_range] at hm
  obtain ⟨i, hi, rfl⟩ := hm
  obtain ⟨hr, hb, hs, -⟩ := matchRecordAt_spec now seed i
  have h20 : (20 : ℤ) ≤ ballsAt seed i := le_max_left _ _
  rw [hr, hb, hs]
  exact ⟨h20, by rw [if_pos (by omega)]⟩

/-- Witness for C9 at `now = 0`, seed 0, on the first generated record. -/
theorem generate_balls_ge_20_witness :
    matchRecordAt 0 0 0 ∈ generateMatches 0 0 ∧
    20 ≤ (matchRecordAt 0 0 0).balls ∧
    (matchRecordAt 0 0 0).strikeRate
      = round1 (((matchRecordAt 0 0 0).runs : ℚ)
          / ((matchRecordAt 0 0 0).balls : ℚ) * 100) := by
  have hm : matchRecordAt 0 0 0 ∈ generateMatches 0 0 :=
    List.mem_map.mpr ⟨0, List.mem_range.mpr (by omega), rfl⟩
  exact ⟨hm, generate_balls_ge_20 0 0 _ hm⟩

/-- C7: the form analyzer returns `none` on a missing or empty match list,
and on every non-empty list and every role it returns a result (it is a
total function — it cannot throw). -/
theorem analyzeRecentForm_null_safety (playerRole : String) :
    analyzeRecentForm none playerRole = none ∧
    analyzeRecentForm (some []) playerRole = none ∧
    ∀ l : List MatchRecord, l ≠ [] →
      (analyzeRecentForm (some l) playerRole).isSome = true := by
  refine ⟨rfl, rfl, ?_⟩
  intro l hl
  simp only [analyzeRecentForm]
  rw [if_neg (by simpa using hl)]
  split_ifs <;> rfl

/-- Witness for C7 with role Batsman and a singleton list. -/
theorem analyzeRecentForm_null_safety_witness :
    analyzeRecentForm none "Batsman" = none ∧
    analyzeRecentForm (some []) "Batsman" = none ∧
    (analyzeRecentForm (some [matchRecordAt 0 0 0]) "Batsman").isSome = true :=
  ⟨(analyzeRecentForm_null_safety "Batsman").1,
   (analyzeRecentForm_null_safety "Batsman").2.1,
   (analyzeRecentForm_null_safety "Batsman").2.2 _ (List.cons_ne_nil _ _)⟩

/-- Helper: `slice(-5)` of a list of at most 5 elements is the list itself. -/
theorem last5_of_length_le (l : List MatchRecord) (h : l.length ≤ 5) :
    last5 l = l := by
  simp [last5, Nat.sub_eq_zero_of_le h]

/-- C10: on a non-empty list shorter than 5 records the analyzer's averages
divide the totals of the available records by the constant 5, not by the
list length, so each average with a positive total is strictly below the
true mean of the supplied records; the analyzer's result is the role branch
built from exactly these deflated averages. -/
theorem analyzeRecentForm_divides_by_five
    (l : List MatchRecord) (hne : l ≠ []) (hlen : l.length < 5) :
    avgRuns l = sumRuns l / 5 ∧
    avgSR l = sumSR l / 5 ∧
    avgEconomy l = sumEconomy l / 5 ∧
    (0 < sumRuns l → avgRuns l < sumRuns l / l.length) ∧
    (0 < sumSR l → avgSR l < sumSR l / l.length) ∧
    (0 < sumEconomy l → avgEconomy l < sumEconomy l / l.length) ∧
    (∀ playerRole, playerRole ≠ "Bowler" →
      analyzeRecentForm (some l) playerRole = some (batsmanForm l)) ∧
    analyzeRecentForm (some l) "Bowler" = some (bowlerForm l) := by
  have h5 : last5 l = l := last5_of_length_le l (le_of_lt hlen)
  have hlpos : 0 < l.length := List.length_pos.mpr hne
  have hcast : (0 : ℚ) < (l.length : ℚ) := by exact_mod_cast hlpos
  have hlt5 : ((l.length : ℚ)) < 5 := by exact_mod_cast hlen
  have deflate : ∀ S : ℚ, 0 < S → S / 5 < S / l.length := fun S hS =>
    div_lt_div_of_pos_left hS hcast hlt5
  refine ⟨by rw [avgRuns, h5], by rw [avgSR, h5], by rw [avgEconomy, h5],
    fun h => by rw [avgRuns, h5]; exact deflate _ h,
    fun h => by rw [avgSR, h5]; exact deflate _ h,
    fun h => by rw [avgEconomy, h5]; exact deflate _ h,
    ?_, ?_⟩
  · intro playerRole hrole
    simp only [analyzeRecentForm]
    rw [if_neg (by simpa using hne)]
    rw [if_neg (by simpa using hrole)]
  · simp only [analyzeRecentForm]
    rw [if_neg (by simpa using hne)]
    rfl

/-- Witness for C10 on a concrete two-record list. -/
theorem analyzeRecentForm_divides_by_five_witness :
    ([matchRecordAt 0 0 0, matchRecordAt 0 0 1] : List MatchRecord) ≠ [] ∧
    ([matchRecordAt 0 0 0, matchRecordAt 0 0 1] : List MatchRecord).length < 5 ∧
    (avgRuns [matchRecordAt 0 0 0, matchRecordAt 0 0 1]
        = sumRuns [matchRecordAt 0 0 0, matchRecordAt 0 0 1] / 5 ∧
      avgSR [matchRecordAt 0 0 0, matchRecordAt 0 0 1]
        = sumSR [matchRecordAt 0 0 0, matchRecordAt 0 0 1] / 5 ∧
      avgEconomy [matchRecordAt 0 0 0, matchRecordAt 0 0 1]
        = sumEconomy [matchRecordAt 0 0 0, matchRecordAt 0 0 1] / 5 ∧
      (0 < sumRuns [matchRecordAt 0 0 0, matchRecordAt 0 0 1] →
        avgRuns [matchRecordAt 0 0 0, matchRecordAt 0 0 1]
          < sumRuns [matchRecordAt 0 0 0, matchRecordAt 0 0 1]
            / ([matchRecordAt 0 0 0, matchRecordAt 0 0 1] : List MatchRecord).length) ∧
      (0 < sumSR [matchRecordAt 0 0 0, matchRecordAt 0 0 1] →
        avgSR [matchRecordAt 0 0 0, matchRecordAt 0 0 1]
          < sumSR [matchRecordAt 0 0 0, matchRecordAt 0 0 1]
            / ([matchRecordAt 0 0 0, matchRecordAt 0 0 1] : List MatchRecord).length) ∧
      (0 < sumEconomy [matchRecordAt 0 0 0, matchRecordAt 0 0 1] →
        avgEconomy [matchRecordAt 0 0 0, matchRecordAt 0 0 1]
          < sumEconomy [matchRecordAt 0 0 0, matchRecordAt 0 0 1]
            / ([matchRecordAt 0 0 0, matchRecordAt 0 0 1] : List MatchRecord).length) ∧
      (∀ playerRole, playerRole ≠ "Bowler" →
        analyzeRecentForm (some [matchRecordAt 0 0 0, matchRecordAt 0 0 1]) playerRole
          = some (batsmanForm [matchRecordAt 0 0 0, matchRecordAt 0 0 1])) ∧
      analyzeRecentForm (some [matchRecordAt 0 0 0, matchRecordAt 0 0 1]) "Bowler"
        = some (bowlerForm [matchRecordAt 0 0 0, matchRecordAt 0 0 1])) :=
  ⟨List.cons_ne_nil _ _, by decide,
    analyzeRecentForm_divides_by_five _ (List.cons_ne_nil _ _) (by decide)⟩

/-- C3 counterexample: two invocations of the full pipeline with the
identical name, team and role (and the same clock) differ when the ambient
`Math.random()` source draws different values — here the drawn constant 0
versus 1/4 changes the career stats (e.g. `totalRuns` 11000 vs 11250) — so
identical name does NOT imply identical generated outputs for every
generated field. -/
theorem generatePlayerStats_random_counterexample :
    generatePlayerStats 0 (fun _ => 0) "A" "T" "Batsman"
      ≠ generatePlayerStats 0 (fun _ => (1 : ℚ)/4) "A" "T" "Batsman" := by
  intro h
  have e1 : careerTotalMatches
      (generatePlayerStats 0 (fun _ => 0) "A" "T" "Batsman").careerStats = 80 := by
    simp only [generatePlayerStats, generateRoleSpecificStats]
    norm_num [careerTotalMatches, jsFloor]
    rw [if_neg (by decide), if_neg (by decide), if_neg (by decide)]
  have e2 : careerTotalMatches
      (generatePlayerStats 0 (fun _ => (1 : ℚ)/4) "A" "T" "Batsman").careerStats = 110 := by
    simp only [generatePlayerStats, generateRoleSpecificStats]
    norm_num [careerTotalMatches, jsFloor]
    rw [if_neg (by decide), if_neg (by decide), if_neg (by decide)]
  have h1 : (80 : ℤ) = 110 := by
    rw [← e1, ← e2, h]
  exact absurd h1 (by norm_num)

/-- C3 amended: identical name (with identical team and role) yields an
identical name hash and hence identical values for every seed-derived field
of the pipeline output — `recentForm`, `recentFormAnalysis`,
`situationalStats`, `phasePerformance`, `homeAwayStats`,
`performanceTrend`, `formatPerformance`, `vsOpponents` — whatever values the
ambient `Math.random()` source draws; only `careerStats` and `playerSkills`
additionally depend on the unseeded random draws. -/
theorem generatePlayerStats_seed_fields_deterministic
    (now : ℤ) (r1 r2 : ℕ → ℚ) (playerName teamName playerRole : String) :
    (generatePlayerStats now r1 playerName teamName playerRole).recentForm
      = (generatePlayerStats now r2 playerName teamName playerRole).recentForm ∧
    (generatePlayerStats now r1 playerName teamName playerRole).recentFormAnalysis
      = (generatePlayerStats now r2 playerName teamName playerRole).recentFormAnalysis ∧
    (generatePlayerStats now r1 playerName teamName playerRole).situationalStats
      = (generatePlayerStats now r2 playerName teamName playerRole).situationalStats ∧
    (generatePlayerStats now r1 playerName teamName playerRole).phasePerformance
      = (generatePlayerStats now r2 playerName teamName playerRole).phasePerformance ∧
    (generatePlayerStats now r1 playerName teamName playerRole).homeAwayStats
      = (generatePlayerStats now r2 playerName teamName playerRole).homeAwayStats ∧
    (generatePlayerStats now r1 playerName teamName playerRole).performanceTrend
      = (generatePlayerStats now r2 playerName teamName playerRole).performanceTrend ∧
    (generatePlayerStats now r1 playerName teamName playerRole).formatPerformance
      = (generatePlayerStats now r2 playerName teamName playerRole).formatPerformance ∧
    (generatePlayerStats now r1 playerName teamName playerRole).vsOpponents
      = (generatePlayerStats now r2 playerName teamName playerRole).vsOpponents :=
  ⟨rfl, rfl, rfl, rfl, rfl, rfl, rfl, rfl⟩

end Cricket
